import Mathlib

/-!
A shallow embedding of `src/import_parser.py` (the spreadsheet-import decoder)
and proofs about it.

Modelling conventions:
* Python `str` is modelled as `List Char`.
* Python `float` values are modelled as exact rationals (`ℚ`).  The numeric
  tokens exercised here are short decimal literals, for which IEEE-754
  rounding preserves equality and integrality, so the exact model agrees
  with the source on every property stated below.  The special float forms
  `inf`/`nan`, digit-group underscores and overflow-to-infinity are outside
  the model.
* Python `dict` is modelled as an association list; insertion overwrites the
  value at the first matching key in place (Python keeps the original
  position of an overwritten key) and otherwise appends.
* The zip container and XML parsing layers are modelled by handing each
  function the already-parsed XML documents; an XML element carries its
  (namespace-qualified) tag, its attribute list, its text (ElementTree's
  `text = None` is modelled as the empty text) and its children.
* Python exceptions are modelled with `Except`; the constructors of `Err`
  name the distinct raise sites of the source.
-/

deriving instance DecidableEq for Except

/-- The set of ASCII whitespace characters removed by Python `str.strip()`
(the inputs in this development are ASCII; other Unicode whitespace is not
modelled). -/
def pyIsSpace (c : Char) : Bool :=
  c = ' ' || c = '\t' || c = '\n' || c = '\x0d' || c = '\x0b' || c = '\x0c'

/-- Python `str.strip()`: remove leading and trailing whitespace. -/
def pyStrip (l : List Char) : List Char :=
  ((l.dropWhile pyIsSpace).reverse.dropWhile pyIsSpace).reverse

/-- `_normalize_text` (import_parser.py:196-197): `str(value).strip()`; on a
string argument `str` is the identity, so this is a strip. -/
def normalizeText (value : List Char) : List Char :=
  pyStrip value

/-- Python `str.split(sep)` for a one-character separator: split on every
occurrence, keeping empty fragments (`"".split(";") == [""]`). -/
def splitOnChar (sep : Char) : List Char → List (List Char)
  | [] => [[]]
  | c :: rest =>
    let r := splitOnChar sep rest
    if c = sep then
      [] :: r
    else
      match r with
      | h :: t => (c :: h) :: t
      | [] => [[c]]

/-- Value of a (non-empty) string of decimal digits. -/
def digitsToNat (l : List Char) : ℕ :=
  l.foldl (fun acc c => acc * 10 + (c.toNat - '0'.toNat)) 0

/-- Python `int(str)`: strip whitespace, optional sign, then a non-empty run
of decimal digits; anything else raises `ValueError` (modelled as `none`).
Digit-group underscores are not modelled. -/
def parsePyInt (cs : List Char) : Option ℤ :=
  let s := pyStrip cs
  match s with
  | '+' :: r => if r ≠ [] ∧ r.all Char.isDigit then some (digitsToNat r) else none
  | '-' :: r => if r ≠ [] ∧ r.all Char.isDigit then some (-(digitsToNat r : ℤ)) else none
  | r => if r ≠ [] ∧ r.all Char.isDigit then some (digitsToNat r) else none

/-- The exact rational `sgn * m * 10 ^ e` (built through `Rat.divInt` so that
every construction stays kernel-computable). -/
def decToRat (sgn : ℤ) (m : ℕ) (e : ℤ) : ℚ :=
  if 0 ≤ e then Rat.divInt (sgn * m * 10 ^ e.toNat) 1
  else Rat.divInt (sgn * m) (10 ^ (-e).toNat)

/-- The optional exponent suffix of a Python float literal: either nothing
remains, or `e`/`E`, an optional sign and a non-empty digit run. -/
def parseExpPart : List Char → Option ℤ
  | [] => some 0
  | c :: rest =>
    if c = 'e' ∨ c = 'E' then
      match rest with
      | '+' :: r => if r ≠ [] ∧ r.all Char.isDigit then some (digitsToNat r) else none
      | '-' :: r => if r ≠ [] ∧ r.all Char.isDigit then some (-(digitsToNat r : ℤ)) else none
      | r => if r ≠ [] ∧ r.all Char.isDigit then some (digitsToNat r) else none
    else none

/-- The body of a Python float literal after the optional sign:
`digits [. digits] [exp]` or `. digits [exp]`, with at least one digit
overall.  `sgn` is the already-consumed sign. -/
def parseFloatBody (sgn : ℤ) (r1 : List Char) : Option ℚ :=
  let ipart := r1.takeWhile Char.isDigit
  let r2 := r1.dropWhile Char.isDigit
  match r2 with
  | '.' :: r3 =>
    let fpart := r3.takeWhile Char.isDigit
    let r4 := r3.dropWhile Char.isDigit
    if ipart = [] ∧ fpart = [] then none
    else
      (parseExpPart r4).map fun e =>
        decToRat sgn (digitsToNat ipart * 10 ^ fpart.length + digitsToNat fpart)
          (e - fpart.length)
  | r2' =>
    if ipart = [] then none
    else (parseExpPart r2').map fun e => decToRat sgn (digitsToNat ipart) e

/-- Python `float(str)` on a finite decimal literal: optional sign, then the
literal body.  Returns `none` where `float` raises `ValueError`. -/
def parseFloatLit (cs : List Char) : Option ℚ :=
  match cs with
  | '+' :: r => parseFloatBody 1 r
  | '-' :: r => parseFloatBody (-1) r
  | r => parseFloatBody 1 r

/-- The distinct failure kinds raised by `import_parser.py`, named after the
spec's error taxonomy where a raise site corresponds to a taxonomy member:
`sheetNotFound` and `relationshipNotFound` are the two `KeyError`s of
`_resolve_sheet_path`; `numberFormatError` is `float()`'s `ValueError` in
`_parse_float`; `nonIntegerValue` is the `ValueError` of
`_parse_optional_int`; `profileFormatError` is the `ValueError` of
`_parse_profile`.  `uncaughtIntError` models the unguarded `ValueError`
raised by `int(value)` in `_read_sheet_rows` (line 74), which corresponds to
no taxonomy member.  The taxonomy members `MissingPart` and
`SharedStringIndexOutOfRange` have no raise site in the source and hence no
constructor. -/
inductive Err where
  | sheetNotFound
  | relationshipNotFound
  | numberFormatError
  | nonIntegerValue
  | profileFormatError
  | uncaughtIntError
deriving DecidableEq

/-- The taxonomy members of spec §7 that have a raise site in the source. -/
def errTaxonomy : List Err :=
  [.sheetNotFound, .relationshipNotFound, .numberFormatError, .nonIntegerValue,
    .profileFormatError]

/-- `_parse_float` (import_parser.py:191-193): replace every `","` with `"."`
and parse the result as a float. -/
def parseFloat (value : List Char) : Except Err ℚ :=
  let normalized := value.map fun c => if c = ',' then '.' else c
  match parseFloatLit normalized with
  | none => .error .numberFormatError
  | some q => .ok q

/-- `_parse_optional_float` (import_parser.py:184-188): empty trimmed input
is absent (`none`), otherwise the shared float coercion. -/
def parseOptionalFloat (value : List Char) : Except Err (Option ℚ) :=
  let raw := normalizeText value
  if raw = [] then .ok none
  else
    match parseFloat raw with
    | .error e => .error e
    | .ok q => .ok (some q)

/-- `_parse_optional_int` (import_parser.py:174-181): empty trimmed input is
absent; otherwise parse as float, reject a non-zero fractional part
(`float.is_integer` is `den = 1` in the exact model), and truncate
(`int(number)`, exact on integral values). -/
def parseOptionalInt (value : List Char) : Except Err (Option ℤ) :=
  let raw := normalizeText value
  if raw = [] then .ok none
  else
    match parseFloat raw with
    | .error e => .error e
    | .ok number =>
      if number.den = 1 then .ok (some number.num) else .error .nonIntegerValue

/-- A decoded category-distribution map (`dict[str, Optional[float]]`),
as an insertion-ordered association list. -/
abbrev Profile : Type := List (List Char × Option ℚ)

/-- Python `dict` assignment `d[k] = v`: overwrite in place at the first
matching key, otherwise append. -/
def profileInsert (m : Profile) (k : List Char) (v : Option ℚ) : Profile :=
  match m with
  | [] => [(k, v)]
  | (k0, v0) :: rest =>
    if k0 = k then (k0, v) :: rest else (k0, v0) :: profileInsert rest k v

/-- The body of the `for entry in entries` loop of `_parse_profile`
(import_parser.py:164-170): require a colon, split at the first colon into a
trimmed key and a trimmed raw value, coerce the value, store it. -/
def entryStep (acc : Profile) (entry : List Char) : Except Err Profile :=
  if ':' ∈ entry then
    let key := normalizeText (entry.takeWhile fun c => ¬ c = ':')
    let rawValue := normalizeText ((entry.dropWhile fun c => ¬ c = ':').drop 1)
    match parseOptionalFloat rawValue with
    | .error e => .error e
    | .ok v => .ok (profileInsert acc key v)
  else .error .profileFormatError

/-- Fold `entryStep` over the surviving fragments, aborting at the first
failure (a raised exception aborts the loop of `_parse_profile`). -/
def processEntries (acc : Profile) : List (List Char) → Except Err Profile
  | [] => .ok acc
  | e :: rest =>
    match entryStep acc e with
    | .error err => .error err
    | .ok acc2 => processEntries acc2 rest

/-- Strip one outer brace pair when the text both starts with `{` and ends
with `}`, then re-trim (import_parser.py:158-159). -/
def stripBraces (raw : List Char) : List Char :=
  if raw.head? = some '{' ∧ raw.getLast? = some '}' then
    pyStrip ((raw.drop 1).dropLast)
  else raw

/-- The surviving fragments of a profile cell: trim, strip braces, split on
`;`, trim each part and discard the empty ones
(`[part.strip() for part in raw.split(";") if part.strip()]`). -/
def profileEntriesOf (value : List Char) : List (List Char) :=
  ((splitOnChar ';' (stripBraces (normalizeText value))).map pyStrip).filter
    fun e => ¬ e.isEmpty

/-- `_parse_profile` (import_parser.py:154-171): trim (empty → empty map),
strip one brace pair and re-trim (empty → empty map), then fold the entry
loop over the surviving fragments. -/
def parseProfile (value : List Char) : Except Err Profile :=
  if normalizeText value = [] then .ok []
  else if stripBraces (normalizeText value) = [] then .ok []
  else processEntries [] (profileEntriesOf value)

/-- A raw sheet row (`dict[str, str]`), column letters to raw cell text. -/
abbrev RawRow : Type := List (List Char × List Char)

/-- Python `row.get(col, "")`. -/
def rawRowGet (row : RawRow) (col : List Char) : List Char :=
  match row with
  | [] => []
  | (k, v) :: rest => if k = col then v else rawRowGet rest col

/-- Python `dict` assignment `row_data[col] = value` (overwrite in place,
otherwise append). -/
def rawRowSet (row : RawRow) (col value : List Char) : RawRow :=
  match row with
  | [] => [(col, value)]
  | (k, v) :: rest =>
    if k = col then (k, value) :: rest else (k, v) :: rawRowSet rest col value

def COL_STUDIENGANG : List Char := ['A']
def COL_FACHBEREICH : List Char := ['B']

/-- `STUDIENANFANGER_COLS` (import_parser.py:13). -/
def STUDIENANFANGER_COLS : List (List Char × List Char) :=
  [(['-', '4'], ['C']), (['-', '3'], ['D']), (['-', '2'], ['E']), (['-', '1'], ['F'])]

/-- `IMMATRIKULIERTE_COLS` (import_parser.py:14). -/
def IMMATRIKULIERTE_COLS : List (List Char × List Char) :=
  [(['-', '4'], ['G']), (['-', '3'], ['H']), (['-', '2'], ['I']), (['-', '1'], ['J'])]

def COL_VORSTUDIUM_PROFIL : List Char := ['K']
def COL_ERFOLGSQUOTE : List Char := ['L']
def COL_FACHSEMESTER : List Char := ['M']
def COL_BERUFSERFAHRUNG : List Char := ['N']
def COL_ALTER : List Char := ['O']
def COL_DOZENTEN_HERKUNFT : List Char := ['P']
def COL_MODULE_BELEGUNG : List Char := ['Q']
def COL_MODULTEILNEHMER : List Char := ['R']
def COL_MODULAUSLASTUNG : List Char := ['S']
def COL_ANZAHL_MODULE : List Char := ['T']

/-- `StudyProgramRow` (import_parser.py:27-42). -/
structure StudyProgramRow where
  studiengang : List Char
  fachbereich : List Char
  studienanfaenger : List (List Char × Option ℤ)
  immatrikulierte : List (List Char × Option ℤ)
  vorstudiumProfil : Profile
  erfolgsquote : Option ℚ
  fachsemester : Option ℚ
  berufserfahrung : Option ℚ
  alter : Option ℚ
  dozentenHerkunftProfil : Profile
  moduleBelegungNachSg : Profile
  modulteilnehmerHerkunft : Profile
  modulauslastung : Option ℚ
  anzahlModule : Option ℤ
deriving DecidableEq

/-- `mapExcept f l` evaluates `f` left to right, aborting at the first
failure — the effect of building a list inside a Python loop in which any
element may raise. -/
def mapExcept {α β : Type} (f : α → Except Err β) : List α → Except Err (List β)
  | [] => .ok []
  | x :: xs =>
    match f x with
    | .error e => .error e
    | .ok v =>
      match mapExcept f xs with
      | .error e => .error e
      | .ok vs => .ok (v :: vs)

/-- One year-offset map (`{key: _parse_optional_int(row.get(col, "")) ...}`),
evaluated in the dict-comprehension order. -/
def decodeYearMap (row : RawRow) (cols : List (List Char × List Char)) :
    Except Err (List (List Char × Option ℤ)) :=
  mapExcept
    (fun kc =>
      match parseOptionalInt (rawRowGet row kc.2) with
      | .error e => .error e
      | .ok v => .ok (kc.1, v))
    cols

/-- The record-building part of the loop body of `_parse_import_rows`
(import_parser.py:126-150), for a row whose trimmed primary key
`studiengang` is non-empty.  Fallible fields are evaluated in source order,
the first failure aborting the load. -/
def decodeRow (row : RawRow) (studiengang : List Char) :
    Except Err StudyProgramRow := do
  let fachbereich := normalizeText (rawRowGet row COL_FACHBEREICH)
  let studienanfaenger ← decodeYearMap row STUDIENANFANGER_COLS
  let immatrikulierte ← decodeYearMap row IMMATRIKULIERTE_COLS
  let vorstudiumProfil ← parseProfile (rawRowGet row COL_VORSTUDIUM_PROFIL)
  let erfolgsquote ← parseOptionalFloat (rawRowGet row COL_ERFOLGSQUOTE)
  let fachsemester ← parseOptionalFloat (rawRowGet row COL_FACHSEMESTER)
  let berufserfahrung ← parseOptionalFloat (rawRowGet row COL_BERUFSERFAHRUNG)
  let alter ← parseOptionalFloat (rawRowGet row COL_ALTER)
  let dozentenHerkunftProfil ← parseProfile (rawRowGet row COL_DOZENTEN_HERKUNFT)
  let moduleBelegungNachSg ← parseProfile (rawRowGet row COL_MODULE_BELEGUNG)
  let modulteilnehmerHerkunft ← parseProfile (rawRowGet row COL_MODULTEILNEHMER)
  let modulauslastung ← parseOptionalFloat (rawRowGet row COL_MODULAUSLASTUNG)
  let anzahlModule ← parseOptionalInt (rawRowGet row COL_ANZAHL_MODULE)
  pure
    { studiengang := studiengang
      fachbereich := fachbereich
      studienanfaenger := studienanfaenger
      immatrikulierte := immatrikulierte
      vorstudiumProfil := vorstudiumProfil
      erfolgsquote := erfolgsquote
      fachsemester := fachsemester
      berufserfahrung := berufserfahrung
      alter := alter
      dozentenHerkunftProfil := dozentenHerkunftProfil
      moduleBelegungNachSg := moduleBelegungNachSg
      modulteilnehmerHerkunft := modulteilnehmerHerkunft
      modulauslastung := modulauslastung
      anzahlModule := anzahlModule }

/-- The `for row in rows[1:]` loop of `_parse_import_rows`
(import_parser.py:122-151): skip a row whose trimmed primary key is empty,
decode the others in order, abort on the first failure. -/
def parseImportRowsGo : List RawRow → Except Err (List StudyProgramRow)
  | [] => .ok []
  | row :: rest =>
    let studiengang := normalizeText (rawRowGet row COL_STUDIENGANG)
    if studiengang = [] then parseImportRowsGo rest
    else
      match decodeRow row studiengang with
      | .error e => .error e
      | .ok r =>
        match parseImportRowsGo rest with
        | .error e => .error e
        | .ok tl => .ok (r :: tl)

/-- `_parse_import_rows` (import_parser.py:120-151): drop the header row,
then run the decoding loop. -/
def parseImportRows (rows : List RawRow) : Except Err (List StudyProgramRow) :=
  parseImportRowsGo (rows.drop 1)

/-- A parsed XML element: namespace-qualified tag (ElementTree style,
`{uri}local`), attribute association list, text content (ElementTree's
`text = None` modelled as empty text) and child elements in document
order. -/
inductive Xml where
  | elem (tag : List Char) (attrs : List (List Char × List Char))
      (text : List Char) (children : List Xml)

def Xml.tag : Xml → List Char
  | .elem t _ _ _ => t

def Xml.attrs : Xml → List (List Char × List Char)
  | .elem _ a _ _ => a

def Xml.text : Xml → List Char
  | .elem _ _ x _ => x

def Xml.children : Xml → List Xml
  | .elem _ _ _ cs => cs

mutual

/-- All proper descendants of an element, in document (preorder) order:
ElementTree's `findall(".//tag")` search space. -/
def Xml.descendants : Xml → List Xml
  | .elem _ _ _ cs => descendantsList cs

def descendantsList : List Xml → List Xml
  | [] => []
  | x :: xs => x :: (Xml.descendants x ++ descendantsList xs)

end

/-- First-match lookup in an attribute list. -/
def lookupAttr : List (List Char × List Char) → List Char → Option (List Char)
  | [], _ => none
  | (k, v) :: rest, key => if k = key then some v else lookupAttr rest key

/-- Python `elem.attrib.get(key)`. -/
def attrGet (x : Xml) (key : List Char) : Option (List Char) :=
  lookupAttr x.attrs key

/-- ElementTree `findall(".//{ns}tag")`: all descendants with the given
tag, in document order. -/
def findallDescendants (x : Xml) (tag : List Char) : List Xml :=
  x.descendants.filter fun c => c.tag = tag

/-- ElementTree `findall("{ns}tag")`: the direct children with the given
tag, in document order. -/
def childrenTagged (x : Xml) (tag : List Char) : List Xml :=
  x.children.filter fun c => c.tag = tag

/-- ElementTree `find("{ns}tag")`: the first direct child with the given
tag. -/
def findChildTagged (x : Xml) (tag : List Char) : Option Xml :=
  x.children.find? fun c => c.tag = tag

def nsMain : String := "{http://schemas.openxmlformats.org/spreadsheetml/2006/main}"

def tagRow : List Char := (nsMain ++ "row").toList

def tagC : List Char := (nsMain ++ "c").toList

def tagV : List Char := (nsMain ++ "v").toList

def tagSi : List Char := (nsMain ++ "si").toList

def tagT : List Char := (nsMain ++ "t").toList

def tagSheets : List Char := (nsMain ++ "sheets").toList

def tagSheet : List Char := (nsMain ++ "sheet").toList

def tagRelationship : List Char :=
  "{http://schemas.openxmlformats.org/package/2006/relationships}Relationship".toList

def attrRelId : List Char :=
  "{http://schemas.openxmlformats.org/officeDocument/2006/relationships}id".toList

/-- The decoded text of one `si` string entry: the concatenation of the
texts of all its `t` descendants, in document order
(import_parser.py:112-116). -/
def siEntryText (si : Xml) : List Char :=
  ((findallDescendants si tagT).map Xml.text).flatten

/-- `_read_shared_strings` (import_parser.py:104-117): when the optional
shared-string part is absent (`none`), the empty table; otherwise the texts
of the `si` entries in document order.  The Python dict maps `idx ↦ text`
for `idx = 0, 1, ...` via `enumerate`, i.e. it is exactly this positional
list. -/
def readSharedStrings (sst : Option Xml) : List (List Char) :=
  match sst with
  | none => []
  | some pool => (findallDescendants pool tagSi).map siEntryText

/-- Python `shared_strings.get(i, "")` on the positional table: the entry at
`i` when `0 ≤ i < len`, the empty string otherwise. -/
def sharedStringsGet (tbl : List (List Char)) (i : ℤ) : List Char :=
  if 0 ≤ i then tbl.getD i.toNat [] else []

/-- The per-cell body of the row loop of `_read_sheet_rows`
(import_parser.py:66-75): skip a cell without a truthy `r` attribute; keep
the alphabetic part of the reference as the column; take the text of the
first `v` child (empty when absent); for a cell marked `t="s"`, convert the
value text with `int(...)` (an unguarded `ValueError` when it is not an
integer literal) and replace it by `shared_strings.get(index, "")`; store
into the row map. -/
def readCell (shared : List (List Char)) (rowData : RawRow) (cell : Xml) :
    Except Err RawRow :=
  match attrGet cell (['r']) with
  | none => .ok rowData
  | some cellRef =>
    if cellRef = [] then .ok rowData
    else
      let col := cellRef.filter Char.isAlpha
      let value :=
        match findChildTagged cell tagV with
        | none => []
        | some vnode => vnode.text
      if attrGet cell (['t']) = some ['s'] then
        match parsePyInt value with
        | none => .error .uncaughtIntError
        | some i => .ok (rawRowSet rowData col (sharedStringsGet shared i))
      else .ok (rawRowSet rowData col value)

/-- Fold `readCell` over the cells of one row, starting from the empty row
map. -/
def readRowCells (shared : List (List Char)) (acc : RawRow) :
    List Xml → Except Err RawRow
  | [] => .ok acc
  | c :: cs =>
    match readCell shared acc c with
    | .error e => .error e
    | .ok acc2 => readRowCells shared acc2 cs

/-- The row-streaming part of `_read_sheet_rows` (import_parser.py:62-77),
taking the already-parsed sheet document and the shared-string table: one
raw row map per `row` descendant, in document order. -/
def readSheetRows (sheetXml : Xml) (shared : List (List Char)) :
    Except Err (List RawRow) :=
  mapExcept (fun row => readRowCells shared [] (childrenTagged row tagC))
    (findallDescendants sheetXml tagRow)

/-- The sheet entries scanned by `_resolve_sheet_path`
(`findall("main:sheets/main:sheet")`, import_parser.py:84): the `sheet`
children of the `sheets` children of the workbook root, in document
order. -/
def sheetNodesOf (wb : Xml) : List Xml :=
  (childrenTagged wb tagSheets).flatMap fun s => childrenTagged s tagSheet

/-- The first sheet entry whose `name` attribute equals the requested name
(the loop of import_parser.py:84-89 breaks at the first match). -/
def sheetsFirstMatch (wb : Xml) (sheetName : List Char) : Option Xml :=
  (sheetNodesOf wb).find? fun s => attrGet s "name".toList = some sheetName

/-- The sheet-id scan of `_resolve_sheet_path` (import_parser.py:83-89):
`sheet_id` is the relationship-id attribute of the first matching sheet
entry (`None` when no entry matches, or when the matching entry lacks the
attribute). -/
def sheetIdOf (wb : Xml) (sheetName : List Char) : Option (List Char) :=
  (sheetsFirstMatch wb sheetName).bind fun s => attrGet s attrRelId

/-- The relationship scan of `_resolve_sheet_path` (import_parser.py:93-98):
the `Target` attribute of the first `Relationship` entry whose `Id`
attribute equals the sheet id (the loop breaks at the first match). -/
def relTargetOf (rels : Xml) (sheetId : List Char) : Option (List Char) :=
  (childrenTagged rels tagRelationship).find?
      (fun r => attrGet r "Id".toList = some sheetId) |>.bind
    fun r => attrGet r "Target".toList

/-- `_resolve_sheet_path` (import_parser.py:80-101), taking the
already-parsed workbook and relationship-index documents.  A falsy
(`None` or empty) sheet id raises the sheet-not-found `KeyError`; a falsy
target raises the relationship `KeyError`; otherwise the target is
prefixed with `xl/`. -/
def resolveSheetPath (wb rels : Xml) (sheetName : List Char) :
    Except Err (List Char) :=
  match sheetIdOf wb sheetName with
  | none => .error .sheetNotFound
  | some sheetId =>
    if sheetId = [] then .error .sheetNotFound
    else
      match relTargetOf rels sheetId with
      | none => .error .relationshipNotFound
      | some target =>
        if target = [] then .error .relationshipNotFound
        else .ok ("xl/".toList ++ target)

/-- The row-skip condition of `_parse_import_rows`: keep a raw row whose
trimmed primary-key column is non-empty. -/
def keepRow (row : RawRow) : Bool :=
  ¬ normalizeText (rawRowGet row COL_STUDIENGANG) = []

/-- Decoding of one kept raw row (the loop body with the skip already
decided). -/
def decodeKept (row : RawRow) : Except Err StudyProgramRow :=
  decodeRow row (normalizeText (rawRowGet row COL_STUDIENGANG))

/-- A four-row demonstration sheet: header, a kept data row, an empty row
and a whitespace-keyed row (both dropped). -/
def c2demoRows : List RawRow :=
  [[], [(['A'], ['X'])], [], [(['A'], [' ', ' '])]]

/-- The record decoded from the single surviving row of `c2demoRows`. -/
def c2record : StudyProgramRow :=
  { studiengang := ['X']
    fachbereich := []
    studienanfaenger :=
      [(['-', '4'], none), (['-', '3'], none), (['-', '2'], none), (['-', '1'], none)]
    immatrikulierte :=
      [(['-', '4'], none), (['-', '3'], none), (['-', '2'], none), (['-', '1'], none)]
    vorstudiumProfil := []
    erfolgsquote := none
    fachsemester := none
    berufserfahrung := none
    alter := none
    dozentenHerkunftProfil := []
    moduleBelegungNachSg := []
    modulteilnehmerHerkunft := []
    modulauslastung := none
    anzahlModule := none }

/-- The trimmed text right of the first colon of a profile fragment (the
`raw_value` of import_parser.py:167-169). -/
def entryValueRawOf (e : List Char) : List Char :=
  normalizeText ((e.dropWhile fun c => ¬ c = ':').drop 1)

def exceptIsOk {α : Type} : Except Err α → Bool
  | .ok _ => true
  | .error _ => false

/-- A profile fragment on which `entryStep` succeeds: it has a colon and its
value part passes the optional-float coercion. -/
def entryOk (e : List Char) : Bool :=
  decide (':' ∈ e) && exceptIsOk (parseOptionalFloat (entryValueRawOf e))

/-- Whether the `i`-th surviving fragment (if any) decodes successfully. -/
def entryOkIn (entries : List (List Char)) (i : ℕ) : Bool :=
  match entries.get? i with
  | none => true
  | some e => entryOk e

def entryOkAt (value : List Char) (i : ℕ) : Bool :=
  entryOkIn (profileEntriesOf value) i

/-- The text of the `k`-th string entry of a pool document (empty when there
is no such entry). -/
def poolEntryTextAt (pool : Xml) (k : ℕ) : List Char :=
  match (findallDescendants pool tagSi)[k]? with
  | none => []
  | some si => siEntryText si

/-- A two-entry pool document; the second entry's text is split over two
runs (one nested inside a formatting element). -/
def c4pool : Xml :=
  .elem (nsMain ++ "sst").toList [] []
    [.elem tagSi [] [] [.elem tagT [] "ab".toList []],
     .elem tagSi [] []
       [.elem (nsMain ++ "r").toList [] [] [.elem tagT [] "c".toList []],
        .elem tagT [] "d".toList []]]

/-- The one-row, one-cell sheet used to exhibit the out-of-range
shared-string behavior: cell `A1` is marked as a shared string and holds
index `5`. -/
def c1sheet : Xml :=
  .elem (nsMain ++ "worksheet").toList [] []
    [.elem tagRow [] []
      [.elem tagC [(['r'], "A1".toList), (['t'], ['s'])] []
        [.elem tagV [] ['5'] []]]]

/-- The one-entry shared-string table paired with `c1sheet`: index 5 is out
of range. -/
def c1shared : List (List Char) := [['x']]

/-- A workbook whose only sheet entry is named `S` but carries no
relationship-id attribute. -/
def c8wb : Xml :=
  .elem (nsMain ++ "workbook").toList [] []
    [.elem tagSheets [] []
      [.elem tagSheet [("name".toList, ['S'])] [] []]]

/-- A relationship index that does resolve the id `rId1`, to show the
failure is not for lack of a relationship. -/
def c8rels : Xml :=
  .elem "{http://schemas.openxmlformats.org/package/2006/relationships}Relationships".toList
    [] []
    [.elem tagRelationship
      [("Id".toList, "rId1".toList), ("Target".toList, "worksheets/sheet1.xml".toList)]
      [] []]

def mkCellSharedV (ref v : List Char) : Xml :=
  .elem tagC [(['r'], ref), (['t'], ['s'])] [] [.elem tagV [] v []]

def mkCellSharedNoV (ref : List Char) : Xml :=
  .elem tagC [(['r'], ref), (['t'], ['s'])] [] []

def mkRow (cells : List Xml) : Xml :=
  .elem tagRow [] [] cells

def mkSheet (rows : List Xml) : Xml :=
  .elem (nsMain ++ "worksheet").toList [] [] rows

lemma parseFloat_congr (s t : List Char)
    (h : (s.map fun c => if c = ',' then '.' else c) =
      (t.map fun c => if c = ',' then '.' else c)) :
    parseFloat s = parseFloat t := by
  unfold parseFloat
  rw [h]

/-- C6: numeric coercion treats a comma exactly like a dot.  For every token
`X,Y` whose sole decimal separator is the comma, `_parse_float` gives the
same result (value or failure) as on the dotted token `X.Y`. -/
theorem commaTokenEqDotToken (a b : List Char)
    (_h1 : ',' ∉ a) (_h2 : ',' ∉ b) (_h3 : '.' ∉ a) (_h4 : '.' ∉ b) :
    parseFloat (a ++ ',' :: b) = parseFloat (a ++ '.' :: b) := by
  apply parseFloat_congr
  simp [List.map_append]

/-- C6 witness: `"7,5"` and `"7.5"` decode identically. -/
theorem commaTokenEqDotTokenWitness :
    parseFloat ['7', ',', '5'] = parseFloat ['7', '.', '5'] :=
  commaTokenEqDotToken ['7'] ['5'] (by decide) (by decide) (by decide) (by decide)

/-- C5: on a non-empty trimmed token that parses as a number,
`_parse_optional_int` rejects a non-zero fractional part with
`NonIntegerValue` and otherwise truncates to the integer; in particular
`"7.5"` raises `NonIntegerValue` and `"7.0"` decodes to `7`. -/
theorem optionalIntFractionalPart :
    (∀ cs q, normalizeText cs ≠ [] → parseFloat (normalizeText cs) = .ok q →
      parseOptionalInt cs =
        if q.den = 1 then .ok (some q.num) else .error .nonIntegerValue) ∧
    parseOptionalInt ['7', '.', '5'] = .error .nonIntegerValue ∧
    parseOptionalInt ['7', '.', '0'] = .ok (some 7) := by
  refine ⟨fun cs q h hq => ?_, by decide, by decide⟩
  unfold parseOptionalInt
  rw [if_neg h, hq]

/-- C5 witness: the general statement applied at `"7.5"`. -/
theorem optionalIntFractionalPartWitness :
    parseOptionalInt ['7', '.', '5'] =
      if (Rat.divInt 15 2).den = 1 then .ok (some (Rat.divInt 15 2).num)
      else .error .nonIntegerValue :=
  optionalIntFractionalPart.1 ['7', '.', '5'] (Rat.divInt 15 2) (by decide) (by decide)

lemma takeWhile_append_colon (key cs : List Char) (h : ':' ∉ key) :
    ((key ++ ':' :: cs).takeWhile fun c => ¬ c = ':') = key := by
  induction key with
  | nil => simp [List.takeWhile_cons]
  | cons a t ih =>
    rw [List.mem_cons] at h
    push_neg at h
    simp only [List.cons_append, List.takeWhile_cons]
    rw [ih h.2]
    simp [Ne.symm h.1]

lemma dropWhile_append_colon (key cs : List Char) (h : ':' ∉ key) :
    ((key ++ ':' :: cs).dropWhile fun c => ¬ c = ':') = ':' :: cs := by
  induction key with
  | nil => simp [List.dropWhile_cons]
  | cons a t ih =>
    rw [List.mem_cons] at h
    push_neg at h
    simp only [List.cons_append, List.dropWhile_cons]
    rw [ih h.2]
    simp [Ne.symm h.1]

/-- C7: an input that is empty after trimming decodes to the absent value —
for the optional integer coercion, the optional float coercion, and the
value position of a profile entry (`key:`) — never to zero, never to an
error. -/
theorem emptyDecodesToAbsent (cs : List Char) (h : normalizeText cs = []) :
    parseOptionalInt cs = .ok none ∧ parseOptionalFloat cs = .ok none ∧
    ∀ acc key, ':' ∉ key →
      entryStep acc (key ++ ':' :: cs) =
        .ok (profileInsert acc (normalizeText key) none) := by
  refine ⟨?_, ?_, fun acc key hk => ?_⟩
  · unfold parseOptionalInt
    rw [h]
    rfl
  · unfold parseOptionalFloat
    rw [h]
    rfl
  · unfold entryStep
    rw [if_pos (by simp : ':' ∈ key ++ ':' :: cs)]
    rw [takeWhile_append_colon key cs hk, dropWhile_append_colon key cs hk]
    simp only [List.drop_one, List.tail_cons]
    have h' : pyStrip cs = [] := h
    have hv : parseOptionalFloat (normalizeText cs) = .ok none := by
      unfold parseOptionalFloat normalizeText
      rw [h']
      rfl
    rw [hv]

/-- C7 witness: the statement applied to the whitespace-only cell `" "` and
the profile entry `K: `. -/
theorem emptyDecodesToAbsentWitness :
    parseOptionalInt [' '] = .ok none ∧ parseOptionalFloat [' '] = .ok none ∧
    entryStep [] (['K'] ++ ':' :: [' ']) =
      .ok (profileInsert [] (normalizeText ['K']) none) :=
  ⟨(emptyDecodesToAbsent [' '] (by decide)).1,
   (emptyDecodesToAbsent [' '] (by decide)).2.1,
   (emptyDecodesToAbsent [' '] (by decide)).2.2 [] ['K'] (by decide)⟩

/-- C3: profile decoding of `"{A:10;B:20;C:}"` yields exactly
`A ↦ 10`, `B ↦ 20`, `C ↦ absent`; empty or whitespace-only input yields the
empty map without error; a later duplicate key overwrites an earlier one;
brace stripping happens exactly once (a doubly-braced body is not
unwrapped twice, its inner braces reach the numeric coercion and fail). -/
theorem profileDecoding :
    parseProfile "{A:10;B:20;C:}".toList =
      .ok [(['A'], some 10), (['B'], some 20), (['C'], none)] ∧
    (∀ cs, normalizeText cs = [] → parseProfile cs = .ok []) ∧
    parseProfile "A:1;A:2".toList = .ok [(['A'], some 2)] ∧
    parseProfile "{{A:1}}".toList = .error .numberFormatError := by
  refine ⟨by decide, fun cs h => ?_, by decide, by decide⟩
  unfold parseProfile
  rw [h]
  rfl

/-- C3 witness: the empty-input branch applied to `"  "`. -/
theorem profileDecodingWitness : parseProfile [' ', ' '] = .ok [] :=
  profileDecoding.2.1 [' ', ' '] (by decide)

lemma mapExcept_cons {α β : Type} (f : α → Except Err β) (x : α) (l : List α) :
    mapExcept f (x :: l) =
      match f x with
      | .error e => .error e
      | .ok v =>
        match mapExcept f l with
        | .error e => .error e
        | .ok vs => .ok (v :: vs) := rfl

lemma parseImportRowsGo_eq (l : List RawRow) :
    parseImportRowsGo l = mapExcept decodeKept (l.filter keepRow) := by
  induction l with
  | nil => rfl
  | cons row rest ih =>
    by_cases h : normalizeText (rawRowGet row COL_STUDIENGANG) = []
    · have hk : keepRow row = false := by simp [keepRow, h]
      simp only [parseImportRowsGo, if_pos h, List.filter_cons, hk]
      exact ih
    · have hk : keepRow row = true := by simp [keepRow, h]
      have hfil : (row :: rest).filter keepRow = row :: rest.filter keepRow := by
        simp [List.filter_cons, hk]
      have hdk : decodeKept row =
          decodeRow row (normalizeText (rawRowGet row COL_STUDIENGANG)) := rfl
      simp only [parseImportRowsGo, if_neg h]
      rw [hfil, mapExcept_cons, hdk, ih]
      cases decodeRow row (normalizeText (rawRowGet row COL_STUDIENGANG)) with
      | error e => rfl
      | ok r =>
        cases mapExcept decodeKept (List.filter keepRow rest) with
        | error e => rfl
        | ok tl => rfl

lemma mapExcept_ok_length {α β : Type} (f : α → Except Err β) :
    ∀ (l : List α) (out : List β), mapExcept f l = .ok out → out.length = l.length := by
  intro l
  induction l with
  | nil =>
    intro out h
    unfold mapExcept at h
    cases h
    rfl
  | cons x xs ih =>
    intro out h
    unfold mapExcept at h
    cases hf : f x with
    | error e => rw [hf] at h; cases h
    | ok v =>
      rw [hf] at h
      cases hm : mapExcept f xs with
      | error e => rw [hm] at h; cases h
      | ok vs =>
        rw [hm] at h
        cases h
        simp [ih vs hm]

/-- C2: the decoder drops the header row, then produces exactly one record
per remaining raw row whose trimmed primary key is non-empty — rows with an
empty trimmed key are skipped without error — decoding the survivors in
their original order; consequently a successful load has exactly one output
record per surviving row. -/
theorem rowSkipAndOrder (rows : List RawRow) :
    parseImportRows rows = mapExcept decodeKept ((rows.drop 1).filter keepRow) ∧
    ∀ out, parseImportRows rows = .ok out →
      out.length = ((rows.drop 1).filter keepRow).length := by
  refine ⟨parseImportRowsGo_eq _, fun out h => ?_⟩
  rw [show parseImportRows rows = parseImportRowsGo (rows.drop 1) from rfl,
    parseImportRowsGo_eq] at h
  exact mapExcept_ok_length _ _ _ h

/-- C2 witness: on the demonstration sheet the load succeeds with exactly
one record — one per surviving row. -/
theorem rowSkipAndOrderWitness :
    ([c2record] : List StudyProgramRow).length =
      ((c2demoRows.drop 1).filter keepRow).length :=
  (rowSkipAndOrder c2demoRows).2 [c2record] (by decide)

lemma entryStep_ok_of_entryOk (acc : Profile) (e : List Char)
    (h : entryOk e = true) : ∃ p, entryStep acc e = .ok p := by
  unfold entryOk at h
  rw [Bool.and_eq_true] at h
  obtain ⟨h1, h2⟩ := h
  unfold entryStep
  rw [if_pos (of_decide_eq_true h1)]
  unfold entryValueRawOf at h2
  cases hv : parseOptionalFloat (normalizeText ((e.dropWhile fun c => ¬ c = ':').drop 1)) with
  | error e2 =>
    rw [hv] at h2
    exact absurd h2 (by simp [exceptIsOk])
  | ok v =>
    refine ⟨profileInsert acc (normalizeText (e.takeWhile fun c => ¬ c = ':')) v, ?_⟩
    simp only [hv]

lemma parseProfile_eq_processEntries (value : List Char) :
    parseProfile value = processEntries [] (profileEntriesOf value) := by
  unfold parseProfile
  by_cases h1 : normalizeText value = []
  · rw [if_pos h1]
    unfold profileEntriesOf
    rw [h1]
    rfl
  · rw [if_neg h1]
    by_cases h2 : stripBraces (normalizeText value) = []
    · rw [if_pos h2]
      unfold profileEntriesOf
      rw [h2]
      rfl
    · rw [if_neg h2]

lemma processEntries_noColon :
    ∀ (entries : List (List Char)) (acc : Profile) (j : ℕ) (e : List Char),
      entries.get? j = some e → ':' ∉ e →
      (∀ i, i < j → entryOkIn entries i = true) →
      processEntries acc entries = .error .profileFormatError := by
  intro entries
  induction entries with
  | nil =>
    intro acc j e hj
    simp at hj
  | cons hd tl ih =>
    intro acc j e hj hcolon hok
    cases j with
    | zero =>
      rw [List.get?_cons_zero] at hj
      cases hj
      unfold processEntries entryStep
      rw [if_neg hcolon]
    | succ j2 =>
      have h0 : entryOkIn (hd :: tl) 0 = true := hok 0 (Nat.succ_pos _)
      unfold entryOkIn at h0
      rw [List.get?_cons_zero] at h0
      obtain ⟨p, hp⟩ := entryStep_ok_of_entryOk acc hd h0
      unfold processEntries
      rw [hp]
      rw [List.get?_cons_succ] at hj
      refine ih p j2 e hj hcolon fun i hi => ?_
      have := hok (i + 1) (Nat.succ_lt_succ hi)
      unfold entryOkIn at this ⊢
      rwa [List.get?_cons_succ] at this

/-- C9 (amended): a surviving profile fragment without a colon makes the
whole decode fail with `ProfileFormatError`, provided every fragment before
it decodes successfully (an earlier fragment failing the numeric coercion
aborts first, with `NumberFormatError` — see the counterexample). -/
theorem noColonFragmentIsError (value : List Char) (j : ℕ) (e : List Char)
    (hj : (profileEntriesOf value).get? j = some e) (hc : ':' ∉ e)
    (hok : ∀ i, i < j → entryOkAt value i = true) :
    parseProfile value = .error .profileFormatError := by
  rw [parseProfile_eq_processEntries]
  exact processEntries_noColon _ [] j e hj hc hok

/-- C9 counterexample to the claim as stated: in `"A:x;B"` the fragment `B`
has no colon, yet the load fails with `NumberFormatError` (from the earlier
fragment's value `x`), not `ProfileFormatError`. -/
theorem noColonFragmentCex :
    parseProfile "A:x;B".toList = .error .numberFormatError ∧
    (profileEntriesOf "A:x;B".toList).any (fun e => decide (':' ∉ e)) = true ∧
    Err.numberFormatError ≠ Err.profileFormatError := by
  refine ⟨by decide, by decide, by decide⟩

/-- C9 witness: in `"A:1;B"` every fragment before the colon-less `B`
decodes, so the load fails with `ProfileFormatError`. -/
theorem noColonFragmentIsErrorWitness :
    parseProfile "A:1;B".toList = .error .profileFormatError :=
  noColonFragmentIsError "A:1;B".toList 1 ['B'] (by decide) (by decide)
    (by decide)

/-- C4: shared-string construction is positional and 0-based — for every
pool document, a lookup at `k` answers with the text of the `k`-th `si`
entry in document order, each entry's text being the concatenation of its
text runs in document order — and an absent pool part gives the empty
table. -/
theorem sharedStringsPositional :
    (∀ (pool : Xml) (k : ℕ), k < (findallDescendants pool tagSi).length →
      sharedStringsGet (readSharedStrings (some pool)) (k : ℤ) =
        poolEntryTextAt pool k) ∧
    readSharedStrings none = [] := by
  refine ⟨fun pool k hk => ?_, rfl⟩
  unfold sharedStringsGet readSharedStrings poolEntryTextAt
  rw [if_pos (Int.natCast_nonneg k)]
  rw [show ((k : ℤ)).toNat = k from Int.toNat_natCast k]
  rw [List.getElem?_eq_getElem hk]
  simp [List.getD_eq_getElem?_getD, List.getElem?_map, List.getElem?_eq_getElem hk]

/-- C4 witness: in the two-entry pool, index 1 answers with the second
entry's run-concatenated text `"cd"`. -/
theorem sharedStringsPositionalWitness :
    sharedStringsGet (readSharedStrings (some c4pool)) 1 = "cd".toList :=
  (sharedStringsPositional.1 c4pool 1 (by decide)).trans (by decide)

/-- C1 counterexample: with index 5 against a one-entry table, the claimed
`SharedStringIndexOutOfRange` failure does not happen — the load succeeds
and the cell holds the empty string. -/
theorem sharedStringOutOfRangeCex :
    readSheetRows c1sheet c1shared = .ok [[(['A'], [])]] ∧
    parsePyInt ['5'] = some 5 ∧ c1shared.length ≤ 5 := by
  refine ⟨by decide, by decide, by decide⟩

/-- C1 (amended): a shared-string index with no entry at it is silently
replaced by the empty string — `dict.get`'s default — and the load
continues: out-of-range lookup yields the empty string, a marked cell with
any parsed index stores the (possibly empty) lookup without failing, and
the counterexample sheet loads successfully with `""` in the cell. -/
theorem sharedStringOutOfRangeFallback :
    (∀ (tbl : List (List Char)) (i : ℤ), i < 0 ∨ (tbl.length : ℤ) ≤ i →
      sharedStringsGet tbl i = []) ∧
    (∀ (shared : List (List Char)) (rowData : RawRow) (c : Char)
      (cs v : List Char) (i : ℤ), parsePyInt v = some i →
      readCell shared rowData
          (.elem tagC [(['r'], c :: cs), (['t'], ['s'])] [] [.elem tagV [] v []]) =
        .ok (rawRowSet rowData ((c :: cs).filter Char.isAlpha)
          (sharedStringsGet shared i))) ∧
    readSheetRows c1sheet c1shared = .ok [[(['A'], [])]] := by
  refine ⟨fun tbl i hi => ?_, fun shared rowData c cs v i hv => ?_, by decide⟩
  · unfold sharedStringsGet
    rcases hi with hi | hi
    · rw [if_neg (not_le.mpr hi)]
    · rw [if_pos (le_trans (Int.natCast_nonneg _) hi)]
      simp only [List.getD_eq_getElem?_getD]
      rw [List.getElem?_eq_none (by omega)]
      rfl
  · show (match parsePyInt v with
        | none => (.error .uncaughtIntError : Except Err RawRow)
        | some j =>
          .ok (rawRowSet rowData ((c :: cs).filter Char.isAlpha)
            (sharedStringsGet shared j))) = _
    rw [hv]

/-- C1 witness: the out-of-range branch and the cell-level substitution at
concrete inputs. -/
theorem sharedStringOutOfRangeFallbackWitness :
    sharedStringsGet [['x']] 5 = [] ∧
    readCell [['x']] []
        (.elem tagC [(['r'], 'A' :: ['1']), (['t'], ['s'])] [] [.elem tagV [] ['5'] []]) =
      .ok (rawRowSet [] (('A' :: ['1']).filter Char.isAlpha)
        (sharedStringsGet [['x']] 5)) :=
  ⟨sharedStringOutOfRangeFallback.1 [['x']] 5 (Or.inr (by decide)),
   sharedStringOutOfRangeFallback.2.1 [['x']] [] 'A' ['1'] ['5'] 5 (by decide)⟩

/-- C8 (amended): `SheetNotFound` is raised exactly when the first sheet
entry with the requested name yields no truthy relationship id — that is,
when no entry's name attribute equals the requested name, or when the first
matching entry's relationship-id attribute is missing or empty; with a
truthy id, resolution proceeds to the relationship lookup (whose outcomes
are `RelationshipNotFound` or success, never `SheetNotFound`).  The second
conjunct characterizes "no match": the scan finds nothing exactly when no
sheet entry's name attribute equals the requested name. -/
theorem sheetNotFoundCondition (wb rels : Xml) (sheetName : List Char) :
    (resolveSheetPath wb rels sheetName = .error .sheetNotFound ↔
      (match sheetsFirstMatch wb sheetName with
       | none => True
       | some s => attrGet s attrRelId = none ∨ attrGet s attrRelId = some [])) ∧
    (sheetsFirstMatch wb sheetName = none ↔
      ∀ s ∈ sheetNodesOf wb, ¬ attrGet s "name".toList = some sheetName) := by
  constructor
  · unfold resolveSheetPath sheetIdOf
    cases hm : sheetsFirstMatch wb sheetName with
    | none => simp
    | some s =>
      simp only [Option.some_bind]
      cases ha : attrGet s attrRelId with
      | none => simp
      | some id =>
        cases id with
        | nil => simp
        | cons c cs =>
          show (if (c :: cs : List Char) = [] then Except.error Err.sheetNotFound
              else
                match relTargetOf rels (c :: cs) with
                | none => Except.error Err.relationshipNotFound
                | some target =>
                  if target = [] then Except.error Err.relationshipNotFound
                  else Except.ok ("xl/".toList ++ target)) =
              Except.error Err.sheetNotFound ↔
            some (c :: cs) = none ∨ some (c :: cs) = some []
          rw [if_neg (by simp : ¬(c :: cs : List Char) = [])]
          cases ht : relTargetOf rels (c :: cs) with
          | none => simp
          | some t =>
            by_cases h0 : t = []
            · subst h0
              simp
            · simp [h0]
  · unfold sheetsFirstMatch
    rw [List.find?_eq_none]
    simp

/-- C8 counterexample: the workbook `c8wb` does contain a sheet entry whose
name attribute equals `"S"`, yet resolving `"S"` raises `SheetNotFound`
(instead of proceeding to the relationship lookup) because that entry lacks
the relationship-id attribute. -/
theorem sheetNotFoundConditionCex :
    resolveSheetPath c8wb c8rels ['S'] = .error .sheetNotFound ∧
    (sheetNodesOf c8wb).any (fun s => attrGet s "name".toList = some ['S']) = true := by
  refine ⟨by decide, by decide⟩

lemma readCell_sharedBadInt (shared : List (List Char)) (rowData : RawRow)
    (c : Char) (cs v : List Char) (hv : parsePyInt v = none) :
    readCell shared rowData (mkCellSharedV (c :: cs) v) =
      .error .uncaughtIntError := by
  show (match parsePyInt v with
      | none => (.error .uncaughtIntError : Except Err RawRow)
      | some j =>
        .ok (rawRowSet rowData ((c :: cs).filter Char.isAlpha)
          (sharedStringsGet shared j))) = _
  rw [hv]

lemma mapExcept_singleton_error {α β : Type} (f : α → Except Err β) (x : α)
    (e : Err) (h : f x = .error e) : mapExcept f [x] = .error e := by
  unfold mapExcept
  rw [h]

/-- C10: a cell marked with the shared-string type whose value text is not
an integer literal — including the empty text of a marked cell without a
value node — aborts the whole sheet read with the unguarded
`int()`-conversion error, a failure kind outside the spec's error taxonomy;
no row map is produced. -/
theorem sharedMarkerBadIndexText (shared : List (List Char)) (ref v : List Char)
    (h1 : ref ≠ []) (hv : parsePyInt v = none) :
    readSheetRows (mkSheet [mkRow [mkCellSharedV ref v]]) shared =
      .error .uncaughtIntError ∧
    readSheetRows (mkSheet [mkRow [mkCellSharedNoV ref]]) shared =
      .error .uncaughtIntError ∧
    Err.uncaughtIntError ∉ errTaxonomy := by
  obtain ⟨c, cs, rfl⟩ : ∃ c cs, ref = c :: cs := by
    cases ref with
    | nil => exact absurd rfl h1
    | cons c cs => exact ⟨c, cs, rfl⟩
  refine ⟨?_, by rfl, by decide⟩
  unfold readSheetRows
  rw [show findallDescendants (mkSheet [mkRow [mkCellSharedV (c :: cs) v]]) tagRow
      = [mkRow [mkCellSharedV (c :: cs) v]] from rfl]
  refine mapExcept_singleton_error _ _ _ ?_
  show readRowCells shared [] [mkCellSharedV (c :: cs) v] = .error .uncaughtIntError
  unfold readRowCells
  rw [readCell_sharedBadInt shared [] c cs v hv]

/-- C10 witness: the statement applied to cell reference `A1`, non-integer
value text `x` and the empty table. -/
theorem sharedMarkerBadIndexTextWitness :
    readSheetRows (mkSheet [mkRow [mkCellSharedV "A1".toList ['x']]]) [] =
      .error .uncaughtIntError ∧
    readSheetRows (mkSheet [mkRow [mkCellSharedNoV "A1".toList]]) [] =
      .error .uncaughtIntError ∧
    Err.uncaughtIntError ∉ errTaxonomy :=
  sharedMarkerBadIndexText [] "A1".toList ['x'] (by decide) (by decide)
